import Mathlib

/-!
# Food Delivery Management — verification of the order-fulfillment core

Shallow embedding of the data-access layer and order workflow of the
repository (files `backend_logic.py` and `claude_logic.py`), together with
proofs and refutations of the specified properties.

Modelling conventions:
* The SQLite store is an explicit record of table contents (`DBState`);
  each operation is a pure function from a state (plus its inputs) to a
  result value and a successor state.
* Python floats used for prices/stock appear only in comparisons with `0`
  and in plain storage, so they are modelled as `Int`.
* `datetime.now()` is modelled as an explicit `now : String` argument.
* SQLite `cur.lastrowid` for the `Orders` table is modelled by the counter
  `nextOrderId`: no operation in the source ever deletes an `Orders` row,
  so SQLite's "max rowid + 1" assignment coincides with a counter.
* The source never issues `PRAGMA foreign_keys = ON` and ships no schema
  under `src/`, so the embeddings of the source operations perform no
  foreign-key checking; spec-mandated constructs absent from the source
  (foreign-key enforcement, real stock deduction, `place_full_order`) are
  modelled separately under the `SpecModel` namespace, each marked
  `Modelled from the spec:` in its doc comment.
-/

namespace FoodDB

/-- A `Customers` row (`cus_id, cus_name, cus_phone`). -/
structure Customer where
  cus_id : Nat
  cus_name : String
  cus_phone : String
deriving DecidableEq

/-- An `Employees` row (`emp_id, emp_name`). -/
structure Employee where
  emp_id : Nat
  emp_name : String
deriving DecidableEq

/-- A `Shippers` row (`shipper_id, shipper_info`). -/
structure Shipper where
  shipper_id : Nat
  shipper_info : String
deriving DecidableEq

/-- An `Ingredients` row (`ingre_id, ingre_name, stock, unit, expiry, suppliers`). -/
structure Ingredient where
  ingre_id : Nat
  ingre_name : String
  stock : Int
  unit : String
  expiry : String
  suppliers : String
deriving DecidableEq

/-- An `Orders` row (`order_id, dish_req, total_price, order_time, status, cus_id`). -/
structure Order where
  order_id : Nat
  dish_req : String
  total_price : Int
  order_time : String
  status : String
  cus_id : Nat
deriving DecidableEq

/-- A `Bills` row (`order_id, emp_id, shipper_id, total_amount, bill_time`). -/
structure Bill where
  order_id : Nat
  emp_id : Nat
  shipper_id : Nat
  total_amount : Int
  bill_time : String
deriving DecidableEq

/-- A `Deliveries` row (`order_id, shipper_id, delivery_time, delivery_addr, distance, fee`). -/
structure Delivery where
  order_id : Nat
  shipper_id : Nat
  delivery_time : String
  delivery_addr : String
  distance : Int
  fee : Int
deriving DecidableEq

/-- The embedded SQLite store `food_db.db`: the rows of each table, in rowid
order, plus the rowid counter for `Orders` (see the module comment). -/
structure DBState where
  customers : List Customer
  employees : List Employee
  shippers : List Shipper
  ingredients : List Ingredient
  orders : List Order
  bills : List Bill
  deliveries : List Delivery
  nextOrderId : Nat
deriving DecidableEq

/-- SQLite rowid assignment for tables whose inserted id the source never
reads back: max existing id + 1. -/
def nextId (ids : List Nat) : Nat := ids.foldr max 0 + 1

/-- A result row, as the tuple of column texts. -/
abbrev Row := List String

/-- The kinds of `sqlite3` exceptions the source distinguishes:
`sqlite3.IntegrityError` (a constraint violation) versus any other
`sqlite3.Error`. -/
inductive DBError
  | integrity
  | operational
deriving DecidableEq

/-- The dynamic value a Python query helper returns: `None`, a boolean,
a single row, or a list of rows. -/
inductive PyValue
  | none
  | bool (b : Bool)
  | row (r : Row)
  | rows (rs : List Row)
deriving DecidableEq

end FoodDB

namespace FoodDB.ClaudeLogic

/-- Embeds `DatabaseManager.execute_query` (claude_logic.py lines 90-130).
`resp` is the store's response to executing the statement: either an error
or the matched rows in rowid order.  The Python returns `True` after a
commit, `cur.fetchone()` (first row or `None`) when `fetch_one`,
`cur.fetchall()` otherwise, and `None` on any caught `sqlite3` error. -/
def DatabaseManager.execute_query (resp : Except DBError (List Row))
    (fetch_one commit : Bool) : PyValue :=
  match resp with
  | .error _ => PyValue.none
  | .ok rs =>
    if commit then PyValue.bool true
    else if fetch_one then
      match rs.head? with
      | some r => PyValue.row r
      | Option.none => PyValue.none
    else PyValue.rows rs

/-- Embeds `CustomerManager.get_by_phone` (claude_logic.py lines 195-198):
`SELECT ... FROM Customers WHERE cus_phone = ?` with `fetch_one=True`
returns the first matching row or `None`. -/
def CustomerManager.get_by_phone (st : DBState) (phone : String) : Option Customer :=
  st.customers.find? (fun c => c.cus_phone == phone)

/-- Embeds `CustomerManager.add` (claude_logic.py lines 163-188): rejects an
empty name or phone, rejects a phone for which `get_by_phone` finds a row,
otherwise inserts the customer and returns `True`. -/
def CustomerManager.add (st : DBState) (name phone : String) : Bool × DBState :=
  if name = "" ∨ phone = "" then (false, st)
  else
    match CustomerManager.get_by_phone st phone with
    | some _ => (false, st)
    | Option.none =>
      (true, { st with
        customers := st.customers ++
          [⟨nextId (st.customers.map (fun c => c.cus_id)), name, phone⟩] })

end FoodDB.ClaudeLogic

namespace FoodDB

/-- The five recognized status strings, the values of the `OrderStatus`
enum (claude_logic.py lines 25-31). -/
def statusValues : List String :=
  ["Pending", "Preparing", "Ready", "Delivered", "Cancelled"]

/-- The `OrderStatus` enum (claude_logic.py lines 25-31). -/
inductive OrderStatus
  | pending
  | preparing
  | ready
  | delivered
  | cancelled
deriving DecidableEq

/-- Embeds the `OrderStatus(status)` constructor call (claude_logic.py
line 622): yields the member whose value equals the string, raising
`ValueError` (here: `none`) otherwise. -/
def OrderStatus.parse (s : String) : Option OrderStatus :=
  if s = "Pending" then some OrderStatus.pending
  else if s = "Preparing" then some OrderStatus.preparing
  else if s = "Ready" then some OrderStatus.ready
  else if s = "Delivered" then some OrderStatus.delivered
  else if s = "Cancelled" then some OrderStatus.cancelled
  else none

/-- Effect of `UPDATE Orders SET status = ? WHERE order_id = ?`: every row
whose `order_id` matches gets the new status; every other row and every
other column is untouched. -/
def setOrderStatus (st : DBState) (order_id : Nat) (s : String) : DBState :=
  let f := fun (o : Order) =>
    if o.order_id = order_id then { o with status := s } else o
  { st with orders := st.orders.map f }

/-- Effect of `UPDATE Ingredients SET stock = ? WHERE ingre_id = ?`. -/
def setIngredientStock (st : DBState) (ingre_id : Nat) (v : Int) : DBState :=
  let f := fun (i : Ingredient) =>
    if i.ingre_id = ingre_id then { i with stock := v } else i
  { st with ingredients := st.ingredients.map f }

end FoodDB

namespace FoodDB.ClaudeLogic

/-- Embeds `IngredientManager.add` (claude_logic.py lines 402-420): rejects
an empty name or a negative stock, otherwise inserts the ingredient. -/
def IngredientManager.add (st : DBState) (name : String) (stock : Int)
    (unit expiry suppliers : String) : Bool × DBState :=
  if name = "" ∨ stock < 0 then (false, st)
  else
    (true, { st with
      ingredients := st.ingredients ++
        [⟨nextId (st.ingredients.map (fun i => i.ingre_id)),
          name, stock, unit, expiry, suppliers⟩] })

/-- Embeds `IngredientManager.update_stock` (claude_logic.py lines 440-451):
rejects a negative `new_stock`, otherwise runs the `UPDATE` and commits. -/
def IngredientManager.update_stock (st : DBState) (ingre_id : Nat)
    (new_stock : Int) : Bool × DBState :=
  if new_stock < 0 then (false, st)
  else (true, setIngredientStock st ingre_id new_stock)

/-- Embeds `OrderManager.create_order` (claude_logic.py lines 524-551):
rejects an empty `dish_req_string` or a `total_price <= 0` (Python
truthiness of the string is emptiness), otherwise inserts the `Orders` row
with status `"Pending"` and the current timestamp via
`execute_with_lastrowid` and returns the generated rowid. -/
def OrderManager.create_order (st : DBState) (now dish_req_string : String)
    (total_price : Int) (cus_id : Nat) : Option Nat × DBState :=
  if dish_req_string = "" ∨ total_price ≤ 0 then (none, st)
  else
    (some st.nextOrderId,
      { st with
        orders := st.orders ++
          [⟨st.nextOrderId, dish_req_string, total_price, now, "Pending", cus_id⟩]
        nextOrderId := st.nextOrderId + 1 })

/-- Embeds `OrderManager.create_bill` (claude_logic.py lines 553-568): the
`INSERT INTO Bills` always succeeds against the store (the source never
enables foreign-key enforcement), so the row is appended and `True`
returned. -/
def OrderManager.create_bill (st : DBState) (now : String)
    (order_id emp_id shipper_id : Nat) (total_amount : Int) : Bool × DBState :=
  (true, { st with
    bills := st.bills ++ [⟨order_id, emp_id, shipper_id, total_amount, now⟩] })

/-- Embeds `OrderManager.add_delivery` (claude_logic.py lines 570-586). -/
def OrderManager.add_delivery (st : DBState) (now : String)
    (order_id shipper_id : Nat) (delivery_addr : String)
    (distance fee : Int) : Bool × DBState :=
  (true, { st with
    deliveries := st.deliveries ++
      [⟨order_id, shipper_id, now, delivery_addr, distance, fee⟩] })

/-- Embeds `OrderManager.update_status` (claude_logic.py lines 618-632):
validates only that `status` parses as an `OrderStatus` member; on success
runs the `UPDATE` and returns `bool(True)` regardless of the current
status of the order. -/
def OrderManager.update_status (st : DBState) (order_id : Nat)
    (status : String) : Bool × DBState :=
  match OrderStatus.parse status with
  | none => (false, st)
  | some _ => (true, setOrderStatus st order_id status)

end FoodDB.ClaudeLogic

namespace FoodDB.BackendLogic

/-- Embeds `OrderManager.create_order` (backend_logic.py lines 172-197): no
validation at all; inserts the row with status `"Pending"` and returns
`cur.lastrowid`. -/
def OrderManager.create_order (st : DBState) (now dish_req_string : String)
    (total_price : Int) (cus_id : Nat) : Option Nat × DBState :=
  (some st.nextOrderId,
    { st with
      orders := st.orders ++
        [⟨st.nextOrderId, dish_req_string, total_price, now, "Pending", cus_id⟩]
      nextOrderId := st.nextOrderId + 1 })

/-- Embeds `OrderManager.update_status` (backend_logic.py lines 232-235):
no validation of the status string or of the current status; runs the
`UPDATE` and commits. -/
def OrderManager.update_status (st : DBState) (order_id : Nat)
    (status : String) : Bool × DBState :=
  (true, setOrderStatus st order_id status)

/-- Embeds `IngredientManager.update_stock` (backend_logic.py lines
102-104): no validation of `new_stock`; runs the `UPDATE` and commits. -/
def IngredientManager.update_stock (st : DBState) (ingre_id : Nat)
    (new_stock : Int) : Bool × DBState :=
  (true, setIngredientStock st ingre_id new_stock)

/-- Embeds `IngredientManager.add` (backend_logic.py lines 134-137): no
validation; inserts the ingredient row. -/
def IngredientManager.add (st : DBState) (name : String) (stock : Int)
    (unit expiry suppliers : String) : Bool × DBState :=
  (true, { st with
    ingredients := st.ingredients ++
      [⟨nextId (st.ingredients.map (fun i => i.ingre_id)),
        name, stock, unit, expiry, suppliers⟩] })

/-- Embeds `IngredientManager.deduct_stock_for_order` (backend_logic.py
lines 149-155): the body prints a message and returns `True`; it never
reads or writes any `Ingredients` row. -/
def IngredientManager.deduct_stock_for_order (st : DBState)
    (dish_req_string : String) : Bool × DBState :=
  (true, st)

end FoodDB.BackendLogic

namespace FoodDB.SpecModel

/-- The failure kinds of the spec's error taxonomy that the workflow
operations below surface (spec section 7). -/
inductive WorkflowError
  | invalidOrder
  | insufficientStock (ingre_id : Nat)
  | constraintViolation
deriving DecidableEq

/-- Current stock of an ingredient, `none` when no such row exists. -/
def getStock (st : DBState) (ingre_id : Nat) : Option Int :=
  (st.ingredients.find? (fun i => i.ingre_id == ingre_id)).map (fun i => i.stock)

/-- Modelled from the spec: the batch availability check of
`deduct_stock_for_order` (spec section 4.3).  `reqs` is the aggregated
requirement list (ingredient id, required quantity) implied by the dish
request — the source defines no dish-to-ingredient mapping (spec section 9
calls it an open question), so the list is taken as input, each ingredient
at most once.  Returns the first ingredient whose stock is below its
requirement (a missing row counts as deficient), `none` if all suffice. -/
def firstDeficient (st : DBState) : List (Nat × Int) → Option Nat
  | [] => none
  | (iid, q) :: rest =>
    match getStock st iid with
    | some s => if s < q then some iid else firstDeficient st rest
    | none => some iid

/-- Decrement the stock of one ingredient by `q`. -/
def decStock (st : DBState) (ingre_id : Nat) (q : Int) : DBState :=
  let f := fun (i : Ingredient) =>
    if i.ingre_id = ingre_id then { i with stock := i.stock - q } else i
  { st with ingredients := st.ingredients.map f }

/-- Apply all decrements of a requirement list. -/
def deductAll (st : DBState) : List (Nat × Int) → DBState
  | [] => st
  | (iid, q) :: rest => deductAll (decStock st iid q) rest

/-- Modelled from the spec: `deduct_stock_for_order` (spec section 4.3) —
check every requirement against the current stock first, then decrement
all of them; if any ingredient is insufficient the whole call fails with
`InsufficientStock` naming the first deficient ingredient and nothing is
decremented.  The source's `deduct_stock_for_order` is an unimplemented
placeholder, so this behavior exists only in the spec. -/
def deduct_stock_for_order (st : DBState) (reqs : List (Nat × Int)) :
    Except WorkflowError Unit × DBState :=
  match firstDeficient st reqs with
  | some iid => (Except.error (WorkflowError.insufficientStock iid), st)
  | none => (Except.ok (), deductAll st reqs)

/-- Modelled from the spec: `create_bill` under the store's foreign-key
constraints (spec sections 4.3 and 8).  The source ships no schema under
`src/` and never enables foreign-key enforcement, so the constraint check
is taken from the spec: the referenced Order, Employee and Shipper rows
must exist, otherwise the insert fails with a constraint violation (the
`sqlite3.IntegrityError` branch of `execute_query` turns it into a `False`
result) and no `Bills` row is inserted. -/
def create_bill (st : DBState) (now : String)
    (order_id emp_id shipper_id : Nat) (total_amount : Int) : Bool × DBState :=
  if (st.orders.any fun o => o.order_id == order_id) &&
      (st.employees.any fun e => e.emp_id == emp_id) &&
      (st.shippers.any fun s => s.shipper_id == shipper_id) then
    (true, { st with
      bills := st.bills ++ [⟨order_id, emp_id, shipper_id, total_amount, now⟩] })
  else (false, st)

/-- Modelled from the spec: `place_full_order` (spec sections 4.3 and 5) —
the composed entry point absent from the source.  Runs `create_order`
(the claude_logic embedding), the spec's `deduct_stock_for_order`, and the
spec's foreign-key-checked `create_bill` inside one store transaction: if
any step fails, the transaction rolls back, so the result state is the
initial state and no Order row, stock change, or Bill row is visible. -/
def place_full_order (st : DBState) (now dish_req : String)
    (total_price : Int) (cus_id emp_id shipper_id : Nat)
    (reqs : List (Nat × Int)) : Except WorkflowError Nat × DBState :=
  match ClaudeLogic.OrderManager.create_order st now dish_req total_price cus_id with
  | (none, _) => (Except.error WorkflowError.invalidOrder, st)
  | (some oid, st1) =>
    match deduct_stock_for_order st1 reqs with
    | (Except.error e, _) => (Except.error e, st)
    | (Except.ok _, st2) =>
      match create_bill st2 now oid emp_id shipper_id total_price with
      | (false, _) => (Except.error WorkflowError.constraintViolation, st)
      | (true, st3) => (Except.ok oid, st3)

end FoodDB.SpecModel

namespace FoodDB

/-- Modelled from the spec: the legal-transition table of the Status State
Machine (spec section 4.4), written down to compare with the source's
`update_status`. -/
def SpecModel.legalTransition (s t : String) : Bool :=
  (s == "Pending" && (t == "Preparing" || t == "Cancelled")) ||
  (s == "Preparing" && (t == "Ready" || t == "Cancelled")) ||
  (s == "Ready" && (t == "Delivered" || t == "Cancelled"))

/-- The stock invariant of the data model (spec section 3): every
`Ingredients` row has non-negative stock. -/
def stockInv (st : DBState) : Prop := ∀ i ∈ st.ingredients, 0 ≤ i.stock

instance (st : DBState) : Decidable (stockInv st) := by
  unfold stockInv; infer_instance

/-- Run a list of `create_order` calls (claude_logic embedding) in
sequence, collecting the returned ids. -/
def run_create_orders (now : String) (st : DBState) :
    List (String × Int × Nat) → List (Option Nat) × DBState
  | [] => ([], st)
  | (req, price, cid) :: rest =>
    let r := ClaudeLogic.OrderManager.create_order st now req price cid
    let rs := run_create_orders now r.2 rest
    (r.1 :: rs.1, rs.2)

end FoodDB

namespace FoodDB

/-- An empty store whose next `Orders` rowid is 1. -/
def stEmpty : DBState :=
  { customers := [], employees := [], shippers := [], ingredients := [],
    orders := [], bills := [], deliveries := [], nextOrderId := 1 }

/-- The spec's example store (section 8): ingredient Flour, stock 5 kg, plus
one customer, one employee and one shipper. -/
def stFlour : DBState :=
  { customers := [⟨1, "Ann", "555"⟩], employees := [⟨1, "Bob"⟩],
    shippers := [⟨1, "Fast"⟩],
    ingredients := [⟨1, "Flour", 5, "kg", "2026-01-01", "Acme"⟩],
    orders := [], bills := [], deliveries := [], nextOrderId := 1 }

/-- The spec's example store after one Bread order: Flour stock is down
to 2 kg (a second Bread order, requiring 3 kg, must fail). -/
def stFlour2 : DBState :=
  { stFlour with ingredients := [⟨1, "Flour", 2, "kg", "2026-01-01", "Acme"⟩] }

/-- A store holding one order in the terminal status `"Delivered"`. -/
def stDelivered : DBState :=
  { customers := [⟨1, "Ann", "555"⟩], employees := [], shippers := [],
    ingredients := [], orders := [⟨1, "Bread", 4, "t0", "Delivered", 1⟩],
    bills := [], deliveries := [], nextOrderId := 2 }

/-- C2 — counterexample.  In the store of the spec's own scenario (Flour
stock 2 kg, a Bread order requiring 3 kg, so Flour is deficient for the
implied requirement), `deduct_stock_for_order` is claimed to fail with
`InsufficientStock` and decrement nothing; the source's function instead
reports success and neither checks nor decrements any stock. -/
theorem deduct_stock_stub_counterexample :
    SpecModel.firstDeficient stFlour2 [(1, 3)] = some 1 ∧
    BackendLogic.IngredientManager.deduct_stock_for_order stFlour2 "Bread" =
      (true, stFlour2) := by
  exact ⟨by decide, rfl⟩

/-- C2 (amended): `deduct_stock_for_order` (backend_logic.py lines 149-155)
is an unimplemented placeholder: for every store and every dish request it
returns success and leaves every ingredient's stock untouched; in
particular it never fails with `InsufficientStock` and trivially never
performs a partial deduction. -/
theorem deduct_stock_stub_always_succeeds (st : DBState) (req : String) :
    (BackendLogic.IngredientManager.deduct_stock_for_order st req).1 = true ∧
    (BackendLogic.IngredientManager.deduct_stock_for_order st req).2.ingredients =
      st.ingredients := by
  exact ⟨rfl, rfl⟩

/-- C3 — counterexample.  `Delivered → Pending` is not in the spec's
legal-transition table, yet `update_status` (claude_logic variant) reports
success and persists it; the backend_logic variant even persists the
unrecognized string `"Nonsense"`. -/
theorem update_status_ignores_transition_table :
    SpecModel.legalTransition "Delivered" "Pending" = false ∧
    stDelivered.orders.map (fun o => o.status) = ["Delivered"] ∧
    ClaudeLogic.OrderManager.update_status stDelivered 1 "Pending" =
      (true, { stDelivered with orders := [⟨1, "Bread", 4, "t0", "Pending", 1⟩] }) ∧
    BackendLogic.OrderManager.update_status stDelivered 1 "Nonsense" =
      (true, { stDelivered with orders := [⟨1, "Bread", 4, "t0", "Nonsense", 1⟩] }) := by
  refine ⟨by decide, by decide, by decide, by decide⟩

/-- `OrderStatus.parse` succeeds exactly on the five recognized status
strings. -/
theorem OrderStatus.parse_isSome_iff (t : String) :
    (OrderStatus.parse t).isSome = true ↔ t ∈ statusValues := by
  unfold OrderStatus.parse statusValues
  split_ifs with h1 h2 h3 h4 h5 <;> simp_all

/-- C3 (amended): `update_status` consults no transition table.  The
claude_logic variant persists the attempted status T iff T is one of the
five recognized status strings, regardless of the order's current status;
for an unrecognized T it fails and the store is unchanged.  The
backend_logic variant persists any T unconditionally. -/
theorem update_status_checks_value_not_transition (st : DBState) (oid : Nat)
    (t : String) :
    ((ClaudeLogic.OrderManager.update_status st oid t).1 = true ↔ t ∈ statusValues) ∧
    ((ClaudeLogic.OrderManager.update_status st oid t).1 = true →
      (ClaudeLogic.OrderManager.update_status st oid t).2 = setOrderStatus st oid t) ∧
    ((ClaudeLogic.OrderManager.update_status st oid t).1 = false →
      (ClaudeLogic.OrderManager.update_status st oid t).2 = st) ∧
    BackendLogic.OrderManager.update_status st oid t = (true, setOrderStatus st oid t) := by
  unfold ClaudeLogic.OrderManager.update_status BackendLogic.OrderManager.update_status
  rcases hp : OrderStatus.parse t with _ | v
  · have := OrderStatus.parse_isSome_iff t
    rw [hp] at this
    simp only [Option.isSome_none, Bool.false_eq_true, false_iff] at this
    simp [this]
  · have := OrderStatus.parse_isSome_iff t
    rw [hp] at this
    simp only [Option.isSome_some, true_iff] at this
    simp [this]

/-- Witness for the amended C3 theorem at concrete inputs. -/
theorem update_status_checks_value_not_transition_witness :
    (ClaudeLogic.OrderManager.update_status stDelivered 1 "Pending").2 =
      setOrderStatus stDelivered 1 "Pending" ∧
    (ClaudeLogic.OrderManager.update_status stDelivered 1 "Bogus").2 = stDelivered :=
  ⟨(update_status_checks_value_not_transition stDelivered 1 "Pending").2.1 (by decide),
   (update_status_checks_value_not_transition stDelivered 1 "Bogus").2.2.1 (by decide)⟩

end FoodDB

namespace FoodDB

/-- C5 — counterexample.  Starting from a store in which every stock is
non-negative (Flour has 5), the backend_logic `update_stock` — one of the
operations the claim covers — accepts the negative value -1 and stores it,
breaking the invariant. -/
theorem stock_invariant_counterexample :
    stockInv stFlour ∧
    (BackendLogic.IngredientManager.update_stock stFlour 1 (-1)).1 = true ∧
    ¬ stockInv (BackendLogic.IngredientManager.update_stock stFlour 1 (-1)).2 := by
  refine ⟨by decide, rfl, by decide⟩

/-- C5 (amended): the non-negative-stock invariant is preserved by the
claude_logic stock writers — `IngredientManager.add` rejects a negative
stock and `IngredientManager.update_stock` rejects a negative value — and
trivially by the backend_logic `deduct_stock_for_order`, which never
touches stock; the backend_logic `add` and `update_stock`, however, accept
negative values (see the counterexample), so the claim holds only for the
listed claude_logic operations and the deduction stub. -/
theorem stock_invariant_preserved_amended (st : DBState)
    (name unit expiry suppliers req : String) (stock v : Int) (iid : Nat)
    (h : stockInv st) :
    stockInv (ClaudeLogic.IngredientManager.add st name stock unit expiry suppliers).2 ∧
    stockInv (ClaudeLogic.IngredientManager.update_stock st iid v).2 ∧
    (BackendLogic.IngredientManager.deduct_stock_for_order st req).2 = st := by
  refine ⟨?_, ?_, rfl⟩
  · unfold ClaudeLogic.IngredientManager.add
    split_ifs with hc
    · exact h
    · push_neg at hc
      intro i hi
      simp only [List.mem_append, List.mem_singleton] at hi
      rcases hi with hi | hi
      · exact h i hi
      · subst hi; simpa using hc.2
  · unfold ClaudeLogic.IngredientManager.update_stock
    split_ifs with hv
    · exact h
    · intro i hi
      simp only [setIngredientStock, List.mem_map] at hi
      obtain ⟨j, hj, rfl⟩ := hi
      by_cases hid : j.ingre_id = iid
      · rw [if_pos hid]
        show 0 ≤ v
        omega
      · simp only [if_neg hid]
        exact h j hj

/-- Witness for the amended C5 theorem at concrete inputs. -/
theorem stock_invariant_preserved_amended_witness :
    stockInv (ClaudeLogic.IngredientManager.add stFlour "Sugar" (-3) "kg" "e" "s").2 ∧
    stockInv (ClaudeLogic.IngredientManager.update_stock stFlour 1 0).2 ∧
    (BackendLogic.IngredientManager.deduct_stock_for_order stFlour "Bread").2 = stFlour :=
  stock_invariant_preserved_amended stFlour "Sugar" "kg" "e" "s" "Bread" (-3) 0 1 (by decide)

/-- C4 — counterexample.  The backend_logic `create_order` — cited by the
claim — performs no validation: called with an empty dish request and a
total price of 0 it still inserts an `Orders` row and returns its id. -/
theorem create_order_no_validation_counterexample :
    (BackendLogic.OrderManager.create_order stEmpty "t0" "" 0 1).1 = some 1 ∧
    (BackendLogic.OrderManager.create_order stEmpty "t0" "" 0 1).2.orders =
      [⟨1, "", 0, "t0", "Pending", 1⟩] := by
  exact ⟨rfl, rfl⟩

/-- C4 (amended): the claude_logic `create_order` behaves as claimed —
it fails without inserting anything when the dish request is empty or the
total price is not positive, and on valid input appends exactly one
`Orders` row, with status `"Pending"` and the current timestamp, returning
the generated id; the backend_logic variant skips the validation and
inserts unconditionally (see the counterexample). -/
theorem create_order_validates (st : DBState) (now req : String) (price : Int)
    (cid : Nat) :
    ((req = "" ∨ price ≤ 0) →
      ClaudeLogic.OrderManager.create_order st now req price cid = (none, st)) ∧
    (req ≠ "" → 0 < price →
      (ClaudeLogic.OrderManager.create_order st now req price cid).1 =
        some st.nextOrderId ∧
      (ClaudeLogic.OrderManager.create_order st now req price cid).2.orders =
        st.orders ++ [⟨st.nextOrderId, req, price, now, "Pending", cid⟩]) := by
  unfold ClaudeLogic.OrderManager.create_order
  constructor
  · intro hbad
    rw [if_pos hbad]
  · intro hreq hp
    rw [if_neg (by push_neg; exact ⟨hreq, hp⟩)]
    exact ⟨rfl, rfl⟩

/-- Witness for the amended C4 theorem at concrete inputs. -/
theorem create_order_validates_witness :
    ClaudeLogic.OrderManager.create_order stEmpty "t0" "" 0 1 = (none, stEmpty) ∧
    (ClaudeLogic.OrderManager.create_order stEmpty "t0" "Bread" 4 1).2.orders =
      stEmpty.orders ++ [⟨1, "Bread", 4, "t0", "Pending", 1⟩] :=
  ⟨(create_order_validates stEmpty "t0" "" 0 1).1 (Or.inl rfl),
   ((create_order_validates stEmpty "t0" "Bread" 4 1).2 (by decide) (by decide)).2⟩

end FoodDB

namespace FoodDB

/-- C7 — counterexample.  In ReadOne mode (`fetch_one=True, commit=False`)
the Query Executor returns the same value, `None`, for a query that
matched no rows and for a query that failed with a store-level error, so
the caller cannot distinguish the two outcomes. -/
theorem execute_query_readone_not_found_eq_failure :
    ClaudeLogic.DatabaseManager.execute_query (Except.ok []) true false =
      PyValue.none ∧
    ClaudeLogic.DatabaseManager.execute_query (Except.error DBError.operational)
      true false = PyValue.none := by
  exact ⟨rfl, rfl⟩

/-- C7 (amended): in ReadOne mode the Query Executor does return at most
one row — the first matched row, or `None` — but `None` stands both for
"no row matched" and for "the query failed", so the two outcomes are not
distinguishable by the caller. -/
theorem execute_query_readone_at_most_one_row (resp : Except DBError (List Row)) :
    (ClaudeLogic.DatabaseManager.execute_query resp true false = PyValue.none ∨
      ∃ r, ClaudeLogic.DatabaseManager.execute_query resp true false = PyValue.row r) ∧
    (∀ r rs, ClaudeLogic.DatabaseManager.execute_query (Except.ok (r :: rs)) true false =
      PyValue.row r) ∧
    (∀ e, ClaudeLogic.DatabaseManager.execute_query (Except.error e) true false =
      ClaudeLogic.DatabaseManager.execute_query (Except.ok []) true false) := by
  refine ⟨?_, fun r rs => rfl, fun e => by cases e <;> rfl⟩
  unfold ClaudeLogic.DatabaseManager.execute_query
  rcases resp with e | rs
  · exact Or.inl rfl
  · rcases rs with _ | ⟨r, rs⟩
    · exact Or.inl rfl
    · exact Or.inr ⟨r, rfl⟩

/-- C8 — confirmed against the spec-modelled foreign-key constraints: when
the referenced order, employee or shipper row does not exist, `create_bill`
fails (the `sqlite3.IntegrityError` is caught and surfaced as a `False`
result) and no `Bills` row is inserted — the store is unchanged. -/
theorem create_bill_fk_rejects_dangling (st : DBState) (now : String)
    (oid eid sid : Nat) (amt : Int)
    (h : (st.orders.any fun o => o.order_id == oid) = false ∨
         (st.employees.any fun e => e.emp_id == eid) = false ∨
         (st.shippers.any fun s => s.shipper_id == sid) = false) :
    SpecModel.create_bill st now oid eid sid amt = (false, st) := by
  unfold SpecModel.create_bill
  rcases h with h | h | h <;> simp [h]

/-- Witness for C8: the spec's referential scenario — `order_id = 999`
does not exist in the example store, so the bill insert fails and the
store (in particular the `Bills` table) is unchanged. -/
theorem create_bill_fk_rejects_dangling_witness :
    SpecModel.create_bill stFlour "t1" 999 1 1 10 = (false, stFlour) :=
  create_bill_fk_rejects_dangling stFlour "t1" 999 1 1 10 (Or.inl (by decide))

/-- C1 — confirmed against the spec-modelled composition: whenever any of
the three steps of `place_full_order` (order creation, stock deduction,
bill creation) fails, the whole result state is the initial store, so no
`Orders` row, no stock change and no `Bills` row is visible to any
reader. -/
theorem place_full_order_rollback (st : DBState) (now dish_req : String)
    (price : Int) (cid eid sid : Nat) (reqs : List (Nat × Int))
    (e : SpecModel.WorkflowError) :
    (SpecModel.place_full_order st now dish_req price cid eid sid reqs).1 =
      Except.error e →
    (SpecModel.place_full_order st now dish_req price cid eid sid reqs).2 = st := by
  unfold SpecModel.place_full_order
  split
  · intro _; rfl
  · split
    · intro _; rfl
    · split
      · intro _; rfl
      · intro h; exact absurd h (by simp)

/-- Witness for C1: the spec's atomicity scenario — a full order of Bread
against the example store with a nonexistent employee id 999: order
creation and stock deduction both succeed, bill creation fails on the
foreign key, and the final store equals the initial one. -/
theorem place_full_order_rollback_witness :
    (SpecModel.place_full_order stFlour "t1" "Bread" 4 1 999 1 [(1, 3)]).1 =
      Except.error SpecModel.WorkflowError.constraintViolation ∧
    (SpecModel.place_full_order stFlour "t1" "Bread" 4 1 999 1 [(1, 3)]).2 =
      stFlour :=
  ⟨by rfl,
   place_full_order_rollback stFlour "t1" "Bread" 4 1 999 1 [(1, 3)]
     SpecModel.WorkflowError.constraintViolation (by rfl)⟩

end FoodDB

namespace FoodDB

/-- A store holding one customer with phone `"123"`. -/
def stCus : DBState :=
  { customers := [⟨1, "Ann", "123"⟩], employees := [], shippers := [],
    ingredients := [], orders := [], bills := [], deliveries := [],
    nextOrderId := 1 }

/-- C10 — confirmed: `CustomerManager.add` (claude_logic variant) returns
`False` and inserts nothing when the name is empty, the phone is empty, or
a stored customer already has that phone; consequently pairwise-distinct
phones are preserved by every call, so no two stored customers ever share
a phone through this operation. -/
theorem customer_add_rejects_duplicate_phone (st : DBState) (name phone : String) :
    ((name = "" ∨ phone = "" ∨ ∃ c ∈ st.customers, c.cus_phone = phone) →
      ClaudeLogic.CustomerManager.add st name phone = (false, st)) ∧
    (List.Pairwise (fun a b => a.cus_phone ≠ b.cus_phone) st.customers →
      List.Pairwise (fun a b => a.cus_phone ≠ b.cus_phone)
        (ClaudeLogic.CustomerManager.add st name phone).2.customers) := by
  unfold ClaudeLogic.CustomerManager.add
  constructor
  · intro h
    rcases h with h | h | h
    · rw [if_pos (Or.inl h)]
    · rw [if_pos (Or.inr h)]
    · by_cases hne : name = "" ∨ phone = ""
      · rw [if_pos hne]
      · rw [if_neg hne]
        obtain ⟨c, hc, hph⟩ := h
        rcases hfind : ClaudeLogic.CustomerManager.get_by_phone st phone with _ | c'
        · exfalso
          unfold ClaudeLogic.CustomerManager.get_by_phone at hfind
          rw [List.find?_eq_none] at hfind
          exact hfind c hc (by simp [hph])
        · rfl
  · intro hpw
    by_cases hne : name = "" ∨ phone = ""
    · rw [if_pos hne]; exact hpw
    · rw [if_neg hne]
      rcases hfind : ClaudeLogic.CustomerManager.get_by_phone st phone with _ | c'
      · show List.Pairwise _ (st.customers ++ [_])
        rw [List.pairwise_append]
        refine ⟨hpw, List.pairwise_singleton _ _, ?_⟩
        intro a ha b hb
        simp only [List.mem_singleton] at hb
        subst hb
        unfold ClaudeLogic.CustomerManager.get_by_phone at hfind
        rw [List.find?_eq_none] at hfind
        have := hfind a ha
        simpa using this
      · exact hpw

/-- Witness for C10 at concrete inputs: adding a second customer with the
already-stored phone `"123"` fails and changes nothing, and adding a fresh
phone keeps the stored phones pairwise distinct. -/
theorem customer_add_rejects_duplicate_phone_witness :
    ClaudeLogic.CustomerManager.add stCus "Bob" "123" = (false, stCus) ∧
    List.Pairwise (fun a b => a.cus_phone ≠ b.cus_phone)
      (ClaudeLogic.CustomerManager.add stCus "Bob" "999").2.customers :=
  ⟨(customer_add_rejects_duplicate_phone stCus "Bob" "123").1
      (Or.inr (Or.inr ⟨⟨1, "Ann", "123"⟩, by decide, rfl⟩)),
   (customer_add_rejects_duplicate_phone stCus "Bob" "999").2 (by decide)⟩

/-- C9 — confirmed: once created, Order, Bill and Delivery rows are never
modified by any workflow operation except the status of an Order: a
successful `update_status` rewrites exactly the status field of the rows
with the given id and leaves every other field, every other Order row and
all Bill and Delivery rows unchanged, while `create_order`, `create_bill`
and `add_delivery` only append rows and keep every existing row intact. -/
theorem workflow_rows_immutable_except_status (st : DBState)
    (now req addr s : String) (price amt dist fee : Int) (oid cid eid sid : Nat) :
    ((ClaudeLogic.OrderManager.update_status st oid s).1 = true →
      (ClaudeLogic.OrderManager.update_status st oid s).2.orders =
        st.orders.map (fun o => if o.order_id = oid then { o with status := s } else o) ∧
      (ClaudeLogic.OrderManager.update_status st oid s).2.bills = st.bills ∧
      (ClaudeLogic.OrderManager.update_status st oid s).2.deliveries = st.deliveries) ∧
    ((ClaudeLogic.OrderManager.create_order st now req price cid).2.bills = st.bills ∧
      (ClaudeLogic.OrderManager.create_order st now req price cid).2.deliveries =
        st.deliveries ∧
      ∀ o ∈ st.orders,
        o ∈ (ClaudeLogic.OrderManager.create_order st now req price cid).2.orders) ∧
    ((ClaudeLogic.OrderManager.create_bill st now oid eid sid amt).2.orders = st.orders ∧
      (ClaudeLogic.OrderManager.create_bill st now oid eid sid amt).2.deliveries =
        st.deliveries ∧
      ∀ b ∈ st.bills,
        b ∈ (ClaudeLogic.OrderManager.create_bill st now oid eid sid amt).2.bills) ∧
    ((ClaudeLogic.OrderManager.add_delivery st now oid sid addr dist fee).2.orders =
        st.orders ∧
      (ClaudeLogic.OrderManager.add_delivery st now oid sid addr dist fee).2.bills =
        st.bills ∧
      ∀ d ∈ st.deliveries,
        d ∈ (ClaudeLogic.OrderManager.add_delivery st now oid sid addr dist fee).2.deliveries) := by
  refine ⟨?_, ?_, ?_, ?_⟩
  · unfold ClaudeLogic.OrderManager.update_status
    rcases hp : OrderStatus.parse s with _ | v
    · intro h; cases h
    · intro _
      exact ⟨rfl, rfl, rfl⟩
  · unfold ClaudeLogic.OrderManager.create_order
    split_ifs
    · exact ⟨rfl, rfl, fun o ho => ho⟩
    · exact ⟨rfl, rfl, fun o ho => List.mem_append_left _ ho⟩
  · exact ⟨rfl, rfl, fun b hb => List.mem_append_left _ hb⟩
  · exact ⟨rfl, rfl, fun d hd => List.mem_append_left _ hd⟩

/-- Witness for C9: a successful status update on the concrete store
changes exactly the status field. -/
theorem workflow_rows_immutable_except_status_witness :
    (ClaudeLogic.OrderManager.update_status stDelivered 1 "Cancelled").2.orders =
      stDelivered.orders.map
        (fun o => if o.order_id = 1 then { o with status := "Cancelled" } else o) :=
  ((workflow_rows_immutable_except_status stDelivered "t" "r" "a" "Cancelled"
      1 1 1 1 1 1 1 1).1 (by decide)).1

end FoodDB

namespace FoodDB

/-- On a valid input, `create_order` (claude_logic variant) returns the
current `nextOrderId`, appends exactly one Pending row carrying it, and
advances the counter by one. -/
theorem create_order_valid_step (st : DBState) (now req : String) (price : Int)
    (cid : Nat) (hreq : req ≠ "") (hp : 0 < price) :
    ClaudeLogic.OrderManager.create_order st now req price cid =
      (some st.nextOrderId,
        { st with
          orders := st.orders ++ [⟨st.nextOrderId, req, price, now, "Pending", cid⟩]
          nextOrderId := st.nextOrderId + 1 }) := by
  unfold ClaudeLogic.OrderManager.create_order
  rw [if_neg (by push_neg; exact ⟨hreq, hp⟩)]

/-- C6 — confirmed: any sequence of `create_order` calls with valid inputs
succeeds throughout and returns the consecutive ids
`nextOrderId, nextOrderId+1, ...` — a strictly increasing, pairwise
distinct sequence — and every row these calls store has status
`"Pending"`. -/
theorem create_order_ids_strictly_increasing (now : String) (st : DBState)
    (calls : List (String × Int × Nat))
    (h : ∀ c ∈ calls, c.1 ≠ "" ∧ 0 < c.2.1) :
    (run_create_orders now st calls).1 =
      (List.range' st.nextOrderId calls.length).map some ∧
    List.Pairwise (· < ·) (List.range' st.nextOrderId calls.length) ∧
    (List.range' st.nextOrderId calls.length).Nodup ∧
    ∀ o ∈ (run_create_orders now st calls).2.orders,
      o ∈ st.orders ∨ o.status = "Pending" := by
  refine ⟨?_, List.pairwise_lt_range' _ _, List.nodup_range' _ _, ?_⟩
  · induction calls generalizing st with
    | nil => rfl
    | cons c rest ih =>
      obtain ⟨req, price, cid⟩ := c
      have hc := h _ (List.mem_cons_self _ _)
      have hrest : ∀ x ∈ rest, x.1 ≠ "" ∧ 0 < x.2.1 :=
        fun x hx => h x (List.mem_cons_of_mem _ hx)
      simp only [run_create_orders,
        create_order_valid_step st now req price cid hc.1 hc.2]
      rw [List.length_cons, List.range'_succ]
      simp only [List.map_cons, List.cons.injEq]
      exact ⟨by simp, ih _ hrest⟩
  · induction calls generalizing st with
    | nil => exact fun o ho => Or.inl ho
    | cons c rest ih =>
      obtain ⟨req, price, cid⟩ := c
      have hc := h _ (List.mem_cons_self _ _)
      have hrest : ∀ x ∈ rest, x.1 ≠ "" ∧ 0 < x.2.1 :=
        fun x hx => h x (List.mem_cons_of_mem _ hx)
      intro o ho
      simp only [run_create_orders,
        create_order_valid_step st now req price cid hc.1 hc.2] at ho
      rcases ih _ hrest _ ho with hmem | hpend
      · simp only [List.mem_append, List.mem_singleton] at hmem
        rcases hmem with hmem | hmem
        · exact Or.inl hmem
        · subst hmem; exact Or.inr rfl
      · exact Or.inr hpend

/-- Witness for C6: two valid orders against the example store return the
consecutive ids 1 and 2 and both stored rows are Pending. -/
theorem create_order_ids_strictly_increasing_witness :
    (run_create_orders "t0" stFlour [("Bread", 4, 1), ("Soup", 3, 1)]).1 =
      (List.range' stFlour.nextOrderId 2).map some ∧
    ∀ o ∈ (run_create_orders "t0" stFlour [("Bread", 4, 1), ("Soup", 3, 1)]).2.orders,
      o ∈ stFlour.orders ∨ o.status = "Pending" :=
  ⟨(create_order_ids_strictly_increasing "t0" stFlour
      [("Bread", 4, 1), ("Soup", 3, 1)] (by decide)).1,
   (create_order_ids_strictly_increasing "t0" stFlour
      [("Bread", 4, 1), ("Soup", 3, 1)] (by decide)).2.2.2⟩

end FoodDB
